import Mathlib

/-!
Shallow embedding of the linkerd2 policy-controller's inbound route
conversion layer (policy-controller/k8s/index/src/inbound/routes.rs),
together with a small spec-based model of the inbound index derivation
that the in-tree tests exercise.

External API types (kube / k8s-gateway-api / the policy CRD crate) are
embedded with the semantic fields the source destructures; helper parsers
that live outside the excerpt are modelled from the specification and are
marked as such in their doc comments.
-/

/-- Timestamps (chrono `DateTime<Utc>`) modelled as integers. -/
abbrev DateTime := Int

namespace k8s

/-- k8s::Time — a newtype around a timestamp, as destructured by
`route.metadata.creation_timestamp.map(|k8s::Time(t)| t)`. -/
structure Time where
  val : DateTime
deriving DecidableEq, Repr

/-- kube ObjectMeta, restricted to the fields the conversion reads. -/
structure ObjectMeta where
  «namespace» : Option String
  name : Option String
  creation_timestamp : Option Time
deriving DecidableEq, Repr

/-- k8s::Condition as stored on a route's status subresource. -/
structure Condition where
  last_transition_time : Time
  message : String
  observed_generation : Option Int
  reason : String
  status : String
  type_ : String
deriving DecidableEq, Repr

end k8s

namespace gateway

/-- gateway::ParentReference, with the exact fields the source destructures. -/
structure ParentReference where
  group : Option String
  kind : Option String
  «namespace» : Option String
  name : String
  section_name : Option String
  port : Option Nat
deriving DecidableEq, Repr

/-- gateway::RouteParentStatus. -/
structure RouteParentStatus where
  parent_ref : ParentReference
  controller_name : String
  conditions : List k8s.Condition
deriving DecidableEq, Repr

/-- gateway::RouteStatus. -/
structure RouteStatus where
  parents : List RouteParentStatus
deriving DecidableEq, Repr

/-- gateway::CommonRouteSpec. -/
structure CommonRouteSpec where
  parent_refs : Option (List ParentReference)
deriving DecidableEq, Repr

/-- Modelled from the spec: the payload of a request/response
header-modification filter (sets, additions and removals of headers). -/
structure HttpRequestHeaderFilter where
  set : Option (List (String × String))
  add : Option (List (String × String))
  remove : Option (List String)
deriving DecidableEq, Repr

/-- Modelled from the spec: the payload of a request-redirect filter. -/
structure HttpRequestRedirectFilter where
  scheme : Option String
  hostname : Option String
  path : Option String
  port : Option Nat
  status_code : Option Nat
deriving DecidableEq, Repr

/-- Modelled from the spec: the payload of a request-mirror filter
(unsupported by the conversion, which never reads its contents). -/
structure HttpRequestMirrorFilter where
  backend_ref : String
deriving DecidableEq, Repr

/-- Modelled from the spec: the payload of a URL-rewrite filter
(unsupported by the conversion, which never reads its contents). -/
structure HttpUrlRewriteFilter where
  hostname : Option String
  path : Option String
deriving DecidableEq, Repr

/-- Modelled from the spec: the payload of an extension-reference filter
(unsupported by the conversion, which never reads its contents). -/
structure LocalObjectReference where
  group : String
  kind : String
  name : String
deriving DecidableEq, Repr

/-- gateway::HttpRouteFilter — the six filter kinds of the gateway API. -/
inductive HttpRouteFilter where
  | RequestHeaderModifier (request_header_modifier : HttpRequestHeaderFilter)
  | ResponseHeaderModifier (response_header_modifier : HttpRequestHeaderFilter)
  | RequestRedirect (request_redirect : HttpRequestRedirectFilter)
  | RequestMirror (request_mirror : HttpRequestMirrorFilter)
  | URLRewrite (url_rewrite : HttpUrlRewriteFilter)
  | ExtensionRef (extension_ref : LocalObjectReference)
deriving DecidableEq, Repr

/-- gateway::HttpPathMatch. -/
inductive HttpPathMatch where
  | Exact (value : String)
  | PathPrefix (value : String)
  | RegularExpression (value : String)
deriving DecidableEq, Repr

/-- gateway::HttpHeaderMatch. -/
inductive HttpHeaderMatch where
  | Exact (name : String) (value : String)
  | RegularExpression (name : String) (value : String)
deriving DecidableEq, Repr

/-- gateway::HttpQueryParamMatch. -/
inductive HttpQueryParamMatch where
  | Exact (name : String) (value : String)
  | RegularExpression (name : String) (value : String)
deriving DecidableEq, Repr

/-- gateway::HttpRouteMatch, with the four fields the source destructures. -/
structure HttpRouteMatch where
  path : Option HttpPathMatch
  headers : Option (List HttpHeaderMatch)
  query_params : Option (List HttpQueryParamMatch)
  method : Option String
deriving DecidableEq, Repr

/-- gateway::GrpcMethodMatch — exact or regular-expression method match,
both carrying optional service and method names. -/
inductive GrpcMethodMatch where
  | Exact (method : Option String) (service : Option String)
  | RegularExpression (method : Option String) (service : Option String)
deriving DecidableEq, Repr

/-- gateway::GrpcRouteMatch, with the two fields the source destructures. -/
structure GrpcRouteMatch where
  headers : Option (List HttpHeaderMatch)
  method : Option GrpcMethodMatch
deriving DecidableEq, Repr

/-- gateway::HttpRouteRule, with the fields the source destructures
(backend_refs is ignored by the conversion). -/
structure HttpRouteRule where
  «matches» : Option (List HttpRouteMatch)
  filters : Option (List HttpRouteFilter)
  backend_refs : Option (List String)
deriving DecidableEq, Repr

/-- gateway::GrpcRouteFilter — the grpc-route filter kinds of the gateway
API; the source converts them through `Into<gateway::HttpRouteFilter>`. -/
inductive GrpcRouteFilter where
  | RequestHeaderModifier (request_header_modifier : HttpRequestHeaderFilter)
  | ResponseHeaderModifier (response_header_modifier : HttpRequestHeaderFilter)
  | RequestMirror (request_mirror : HttpRequestMirrorFilter)
  | ExtensionRef (extension_ref : LocalObjectReference)
deriving DecidableEq, Repr

/-- Modelled from the spec: the external crate's
`Into<gateway::HttpRouteFilter>` conversion for grpc-route filters, which
maps each variant to the http-route filter variant of the same kind. -/
def GrpcRouteFilter.into : GrpcRouteFilter → HttpRouteFilter
  | .RequestHeaderModifier f => .RequestHeaderModifier f
  | .ResponseHeaderModifier f => .ResponseHeaderModifier f
  | .RequestMirror f => .RequestMirror f
  | .ExtensionRef r => .ExtensionRef r

/-- gateway::GrpcRouteRule. -/
structure GrpcRouteRule where
  «matches» : Option (List GrpcRouteMatch)
  filters : Option (List GrpcRouteFilter)
  backend_refs : Option (List String)
deriving DecidableEq, Repr

/-- gateway::HttpRouteSpec. -/
structure HttpRouteSpec where
  inner : CommonRouteSpec
  hostnames : Option (List String)
  rules : Option (List HttpRouteRule)
deriving DecidableEq, Repr

/-- gateway::HttpRouteStatus — wraps a RouteStatus. -/
structure HttpRouteStatus where
  inner : RouteStatus
deriving DecidableEq, Repr

/-- gateway::HttpRoute. -/
structure HttpRoute where
  metadata : k8s.ObjectMeta
  spec : HttpRouteSpec
  status : Option HttpRouteStatus
deriving DecidableEq, Repr

/-- gateway::GrpcRouteSpec. -/
structure GrpcRouteSpec where
  inner : CommonRouteSpec
  hostnames : Option (List String)
  rules : Option (List GrpcRouteRule)
deriving DecidableEq, Repr

/-- gateway::GrpcRouteStatus — wraps a RouteStatus. -/
structure GrpcRouteStatus where
  inner : RouteStatus
deriving DecidableEq, Repr

/-- gateway::GrpcRoute. -/
structure GrpcRoute where
  metadata : k8s.ObjectMeta
  spec : GrpcRouteSpec
  status : Option GrpcRouteStatus
deriving DecidableEq, Repr

end gateway

namespace policy

/-- policy::HttpRouteFilter — the policy CRD supports exactly the three
filter kinds the conversion accepts. -/
inductive HttpRouteFilter where
  | RequestHeaderModifier (request_header_modifier : gateway.HttpRequestHeaderFilter)
  | ResponseHeaderModifier (response_header_modifier : gateway.HttpRequestHeaderFilter)
  | RequestRedirect (request_redirect : gateway.HttpRequestRedirectFilter)
deriving DecidableEq, Repr

/-- Modelled from the spec: policy route-rule timeouts (ignored by the
conversion, which destructures the rule with `..`). -/
structure HttpRouteTimeouts where
  request : Option Nat
  backend_request : Option Nat
deriving DecidableEq, Repr

/-- policy::HttpRouteRule — matches and filters as destructured by the
source; the remaining fields are ignored there (`..`). -/
structure HttpRouteRule where
  «matches» : Option (List gateway.HttpRouteMatch)
  filters : Option (List HttpRouteFilter)
  backend_refs : Option (List String)
  timeouts : Option HttpRouteTimeouts
deriving DecidableEq, Repr

/-- policy::HttpRouteSpec. -/
structure HttpRouteSpec where
  inner : gateway.CommonRouteSpec
  hostnames : Option (List String)
  rules : Option (List HttpRouteRule)
deriving DecidableEq, Repr

/-- policy::HttpRouteStatus — wraps the gateway RouteStatus. -/
structure HttpRouteStatus where
  inner : gateway.RouteStatus
deriving DecidableEq, Repr

/-- policy::HttpRoute. -/
structure HttpRoute where
  metadata : k8s.ObjectMeta
  spec : HttpRouteSpec
  status : Option HttpRouteStatus
deriving DecidableEq, Repr

/-- Modelled from the spec: the external API crate's
`parent_ref_targets_kind::<Server>` predicate. The spec identifies a
parent reference's target by its resource kind ("the exposure-declaration
(Server) kind"), so the model tests the reference's kind field. -/
def parent_ref_targets_kind_server (parent_ref : gateway.ParentReference) : Bool :=
  parent_ref.kind == some "Server"

end policy

/-- Modelled from the spec: the controller's own identity, used to filter
persisted statuses ("statuses written by this controller"). -/
def POLICY_CONTROLLER_NAME : String := "policy.linkerd.io"

namespace core

/-- Core HostMatch: exact hostname or wildcard suffix pattern. -/
inductive HostMatch where
  | Exact (host : String)
  | Suffix (reverse_labels : List String)
deriving DecidableEq, Repr

/-- Core PathMatch (canonical path predicate). -/
inductive PathMatch where
  | Exact (value : String)
  | Prefix (value : String)
  | Regex (value : String)
deriving DecidableEq, Repr

/-- Core HeaderMatch (canonical header predicate). -/
inductive HeaderMatch where
  | Exact (name : String) (value : String)
  | Regex (name : String) (value : String)
deriving DecidableEq, Repr

/-- Core QueryParamMatch (canonical query-parameter predicate). -/
inductive QueryParamMatch where
  | Exact (name : String) (value : String)
  | Regex (name : String) (value : String)
deriving DecidableEq, Repr

/-- Core Method — an HTTP method, modelled as its name. -/
structure Method where
  verb : String
deriving DecidableEq, Repr

/-- Core HttpRouteMatch, as built by the conversion. -/
structure HttpRouteMatch where
  path : Option PathMatch
  headers : List HeaderMatch
  query_params : List QueryParamMatch
  method : Option Method
deriving DecidableEq, Repr

/-- Core GrpcMethodMatch, as built by the conversion
(`GrpcMethodMatch { method, service }`). -/
structure GrpcMethodMatch where
  method : Option String
  service : Option String
deriving DecidableEq, Repr

/-- Core GrpcRouteMatch, as built by the conversion. -/
structure GrpcRouteMatch where
  headers : List HeaderMatch
  method : Option GrpcMethodMatch
deriving DecidableEq, Repr

/-- Core HeaderModifierFilter (canonical header-modification filter). -/
structure HeaderModifierFilter where
  add : List (String × String)
  set : List (String × String)
  remove : List String
deriving DecidableEq, Repr

/-- Core RequestRedirectFilter (canonical request-redirect filter). -/
structure RequestRedirectFilter where
  scheme : Option String
  host : Option String
  path : Option String
  port : Option Nat
  status : Option Nat
deriving DecidableEq, Repr

/-- Core Filter — the canonical filters the conversion can produce. -/
inductive Filter where
  | RequestHeaderModifier (f : HeaderModifierFilter)
  | ResponseHeaderModifier (f : HeaderModifierFilter)
  | RequestRedirect (f : RequestRedirectFilter)
deriving DecidableEq, Repr

/-- Core AuthorizationRef — a reference to a resolved authorization
(the adapter never constructs one). -/
inductive AuthorizationRef where
  | Default (name : String)
  | AuthorizationPolicy (name : String)
deriving DecidableEq, Repr

/-- Core ClientAuthorization, reduced to a tag: its contents are resolved
by the Index, never by the adapter. -/
structure ClientAuthorization where
  tag : String
deriving DecidableEq, Repr

/-- Core InboundRouteRule. -/
structure InboundRouteRule (MatchType : Type) where
  «matches» : List MatchType
  filters : List Filter
deriving DecidableEq, Repr

/-- Core InboundRoute: the canonical route model. The authorizations
HashMap is modelled as an association list. -/
structure InboundRoute (MatchType : Type) where
  hostnames : List HostMatch
  rules : List (InboundRouteRule MatchType)
  authorizations : List (AuthorizationRef × ClientAuthorization)
  creation_timestamp : Option DateTime
deriving DecidableEq, Repr

end core

/-- InvalidParentRef — the typed invalid-parent-reference errors. -/
inductive InvalidParentRef where
  | ServerInAnotherNamespace
  | SpecifiesPort
  | SpecifiesSection
deriving DecidableEq, Repr

/-- Conversion errors, standing for `anyhow::Error`: either a typed
invalid-parent-reference error (lifted by the `?` operator) or an error
message (`bail!` / parser errors). -/
inductive ConvError where
  | invalidParentRef (e : InvalidParentRef)
  | message (msg : String)
deriving DecidableEq, Repr

namespace routes
namespace http

/-- Split a hostname's characters into its dot-separated labels. -/
def split_labels (cur : List Char) : List Char → List String
  | [] => [String.mk cur.reverse]
  | c :: rest =>
    if c = '.' then String.mk cur.reverse :: split_labels [] rest
    else split_labels (c :: cur) rest

/-- Modelled from the spec: `routes::http::host_match` parses a hostname
into a host-match pattern — a wildcard-suffix pattern (reversed labels)
when the hostname begins with the wildcard marker `*.`, an exact pattern
otherwise; the conversion site applies it infallibly
(`.map(routes::http::host_match).collect()`). -/
def host_match (hostname : String) : core.HostMatch :=
  match hostname.data with
  | '*' :: '.' :: rest => core.HostMatch.Suffix ((split_labels [] rest).reverse)
  | _ => core.HostMatch.Exact hostname

/-- Modelled from the spec: `routes::http::path_match` converts a gateway
path match (exact / path-prefix / regular-expression) into the canonical
path predicate; the spec names no malformed case beyond the generic one,
so the model converts every input. -/
def path_match (path : gateway.HttpPathMatch) : Except ConvError core.PathMatch :=
  match path with
  | .Exact value => Except.ok (core.PathMatch.Exact value)
  | .PathPrefix value => Except.ok (core.PathMatch.Prefix value)
  | .RegularExpression value => Except.ok (core.PathMatch.Regex value)

/-- Modelled from the spec: `routes::http::header_match` converts a
gateway header match into the canonical header predicate. -/
def header_match (header : gateway.HttpHeaderMatch) : Except ConvError core.HeaderMatch :=
  match header with
  | .Exact name value => Except.ok (core.HeaderMatch.Exact name value)
  | .RegularExpression name value => Except.ok (core.HeaderMatch.Regex name value)

/-- Modelled from the spec: `routes::http::query_param_match` converts a
gateway query-parameter match into the canonical predicate. -/
def query_param_match (q : gateway.HttpQueryParamMatch) : Except ConvError core.QueryParamMatch :=
  match q with
  | .Exact name value => Except.ok (core.QueryParamMatch.Exact name value)
  | .RegularExpression name value => Except.ok (core.QueryParamMatch.Regex name value)

/-- Modelled from the spec: `routes::http::header_modifier` converts a
header-modification filter payload into the canonical filter. -/
def header_modifier (f : gateway.HttpRequestHeaderFilter) :
    Except ConvError core.HeaderModifierFilter :=
  Except.ok { add := f.add.getD [], set := f.set.getD [], remove := f.remove.getD [] }

/-- Modelled from the spec: `routes::http::req_redirect` converts a
request-redirect filter payload into the canonical filter. -/
def req_redirect (f : gateway.HttpRequestRedirectFilter) :
    Except ConvError core.RequestRedirectFilter :=
  Except.ok { scheme := f.scheme, host := f.hostname, path := f.path,
              port := f.port, status := f.status_code }

end http
end routes

namespace core

/-- Modelled from the spec: `Method::try_from` parses an HTTP method name;
the spec names no malformed case for this embedding's claims, so the model
accepts every name. -/
def Method.try_from (s : String) : Except ConvError Method :=
  Except.ok { verb := s }

end core

/-- `collect::<Result<Vec<_>, E>>()`: collect a list of results,
short-circuiting at the first error. -/
def collectExcept {ε α : Type} : List (Except ε α) → Except ε (List α)
  | [] => Except.ok []
  | x :: xs =>
    match x with
    | Except.error e => Except.error e
    | Except.ok a =>
      match collectExcept xs with
      | Except.error e => Except.error e
      | Except.ok rest => Except.ok (a :: rest)

/-- `Option<Result<T, E>>::transpose()`. -/
def optionTranspose {ε α : Type} : Option (Except ε α) → Except ε (Option α)
  | none => Except.ok none
  | some (Except.error e) => Except.error e
  | some (Except.ok a) => Except.ok (some a)

/-- ParentRef — resolved parent references; currently the only valid
parent kind is a Server identified by name. -/
inductive ParentRef where
  | Server (name : String)
deriving DecidableEq, Repr

/-- ConditionType — the condition types the conversion recognizes. -/
inductive ConditionType where
  | Accepted
deriving DecidableEq, Repr

/-- Condition — a parsed acceptance condition. -/
structure Condition where
  type_ : ConditionType
  status : Bool
deriving DecidableEq, Repr

/-- Status — a route's persisted acceptance conditions for one parent. -/
structure Status where
  parent : ParentRef
  conditions : List Condition
deriving DecidableEq, Repr

/-- RouteBinding — a canonical route plus its parent references and
persisted statuses. -/
structure RouteBinding (MatchType : Type) where
  parents : List ParentRef
  route : core.InboundRoute MatchType
  statuses : List Status
deriving DecidableEq, Repr

namespace ParentRef

/-- `ParentRef::from_parent_ref`: skip references that do not target a
`Server` or have an empty name; reject cross-namespace, port-qualified and
section-qualified references; otherwise collect the named Server. -/
def from_parent_ref (route_ns : Option String)
    (parent_ref : gateway.ParentReference) :
    Option (Except InvalidParentRef ParentRef) :=
  if !policy.parent_ref_targets_kind_server parent_ref || parent_ref.name.isEmpty then
    none
  else if parent_ref.«namespace».isSome && parent_ref.«namespace» != route_ns then
    some (Except.error InvalidParentRef.ServerInAnotherNamespace)
  else if parent_ref.port.isSome then
    some (Except.error InvalidParentRef.SpecifiesPort)
  else if parent_ref.section_name.isSome then
    some (Except.error InvalidParentRef.SpecifiesSection)
  else
    some (Except.ok (ParentRef.Server parent_ref.name))

/-- `ParentRef::collect_from`: filter-map every reference through
`from_parent_ref` and collect, short-circuiting at the first error. -/
def collect_from (route_ns : Option String)
    (parent_refs : Option (List gateway.ParentReference)) :
    Except InvalidParentRef (List ParentRef) :=
  collectExcept ((parent_refs.getD []).filterMap (from_parent_ref route_ns))

end ParentRef

namespace Status

/-- `Status::from_parent_status`: keep only parent statuses of kind
`Server`; parse each condition, dropping unrecognized condition types and
status strings individually. -/
def from_parent_status (status : gateway.RouteParentStatus) : Option Status :=
  if status.parent_ref.kind == some "Server" then
    let conditions := status.conditions.filterMap fun condition =>
      if condition.type_ == "Accepted" then
        if condition.status == "True" then
          some { type_ := ConditionType.Accepted, status := true }
        else if condition.status == "False" then
          some { type_ := ConditionType.Accepted, status := false }
        else none
      else none
    some { parent := ParentRef.Server status.parent_ref.name, conditions }
  else none

/-- `Status::collect_from`: keep only parent statuses recorded by this
controller, then filter-map them through `from_parent_status`. -/
def collect_from (status : gateway.RouteStatus) : List Status :=
  (status.parents.filter fun s => s.controller_name == POLICY_CONTROLLER_NAME).filterMap
    from_parent_status

end Status

namespace RouteBinding

/-- `RouteBinding::selects_server`: true iff any parent reference names
the given server. -/
def selects_server {MatchType : Type} (b : RouteBinding MatchType) (name : String) : Bool :=
  b.parents.any fun p =>
    match p with
    | ParentRef.Server n => n == name

/-- `RouteBinding::accepted_by_server`: true iff a stored status for that
parent carries an `Accepted` condition with status true. -/
def accepted_by_server {MatchType : Type} (b : RouteBinding MatchType) (name : String) : Bool :=
  b.statuses.any fun status =>
    decide (status.parent = ParentRef.Server name) &&
      status.conditions.any fun condition =>
        decide (condition.type_ = ConditionType.Accepted) && condition.status

/-- `RouteBinding::try_http_match`: convert one gateway HTTP match,
component by component, failing at the first malformed component. -/
def try_http_match (m : gateway.HttpRouteMatch) : Except ConvError core.HttpRouteMatch :=
  match optionTranspose (m.path.map routes.http.path_match) with
  | Except.error e => Except.error e
  | Except.ok path =>
  match collectExcept ((m.headers.getD []).map routes.http.header_match) with
  | Except.error e => Except.error e
  | Except.ok headers =>
  match collectExcept ((m.query_params.getD []).map routes.http.query_param_match) with
  | Except.error e => Except.error e
  | Except.ok query_params =>
  match optionTranspose (m.method.map core.Method.try_from) with
  | Except.error e => Except.error e
  | Except.ok method =>
    Except.ok { path, headers, query_params, method }

/-- `RouteBinding::try_grpc_match`: convert one gateway gRPC match; the
method predicate maps `Exact` and `RegularExpression` alike onto the
canonical service/method pair. -/
def try_grpc_match (m : gateway.GrpcRouteMatch) : Except ConvError core.GrpcRouteMatch :=
  match collectExcept ((m.headers.getD []).map routes.http.header_match) with
  | Except.error e => Except.error e
  | Except.ok headers =>
    let method := m.method.map fun value =>
      match value with
      | gateway.GrpcMethodMatch.Exact method service =>
          ({ method, service } : core.GrpcMethodMatch)
      | gateway.GrpcMethodMatch.RegularExpression method service =>
          ({ method, service } : core.GrpcMethodMatch)
    Except.ok { headers, method }

/-- `RouteBinding::try_http_rule`: convert a rule's matches and filters,
short-circuiting at the first error. -/
def try_http_rule {F : Type} («matches» : Option (List gateway.HttpRouteMatch))
    (filters : Option (List F)) (try_filter : F → Except ConvError core.Filter) :
    Except ConvError (core.InboundRouteRule core.HttpRouteMatch) :=
  match collectExcept ((«matches».getD []).map try_http_match) with
  | Except.error e => Except.error e
  | Except.ok ms =>
  match collectExcept ((filters.getD []).map try_filter) with
  | Except.error e => Except.error e
  | Except.ok fs => Except.ok { «matches» := ms, filters := fs }

/-- `RouteBinding::try_grpc_rule`: convert a rule's matches and filters,
short-circuiting at the first error. -/
def try_grpc_rule {F : Type} («matches» : Option (List gateway.GrpcRouteMatch))
    (filters : Option (List F)) (try_filter : F → Except ConvError core.Filter) :
    Except ConvError (core.InboundRouteRule core.GrpcRouteMatch) :=
  match collectExcept ((«matches».getD []).map try_grpc_match) with
  | Except.error e => Except.error e
  | Except.ok ms =>
  match collectExcept ((filters.getD []).map try_filter) with
  | Except.error e => Except.error e
  | Except.ok fs => Except.ok { «matches» := ms, filters := fs }

/-- `RouteBinding::try_gateway_filter`: convert the supported gateway
filter kinds; `RequestMirror`, `URLRewrite` and `ExtensionRef` are hard
failures. -/
def try_gateway_filter (filter : gateway.HttpRouteFilter) : Except ConvError core.Filter :=
  match filter with
  | gateway.HttpRouteFilter.RequestHeaderModifier request_header_modifier =>
    match routes.http.header_modifier request_header_modifier with
    | Except.error e => Except.error e
    | Except.ok f => Except.ok (core.Filter.RequestHeaderModifier f)
  | gateway.HttpRouteFilter.ResponseHeaderModifier response_header_modifier =>
    match routes.http.header_modifier response_header_modifier with
    | Except.error e => Except.error e
    | Except.ok f => Except.ok (core.Filter.ResponseHeaderModifier f)
  | gateway.HttpRouteFilter.RequestRedirect request_redirect =>
    match routes.http.req_redirect request_redirect with
    | Except.error e => Except.error e
    | Except.ok f => Except.ok (core.Filter.RequestRedirect f)
  | gateway.HttpRouteFilter.RequestMirror _ =>
    Except.error (ConvError.message "RequestMirror filter is not supported")
  | gateway.HttpRouteFilter.URLRewrite _ =>
    Except.error (ConvError.message "URLRewrite filter is not supported")
  | gateway.HttpRouteFilter.ExtensionRef _ =>
    Except.error (ConvError.message "ExtensionRef filter is not supported")

/-- `RouteBinding::try_policy_filter`: convert the three policy filter
kinds (all supported). -/
def try_policy_filter (filter : policy.HttpRouteFilter) : Except ConvError core.Filter :=
  match filter with
  | policy.HttpRouteFilter.RequestHeaderModifier request_header_modifier =>
    match routes.http.header_modifier request_header_modifier with
    | Except.error e => Except.error e
    | Except.ok f => Except.ok (core.Filter.RequestHeaderModifier f)
  | policy.HttpRouteFilter.ResponseHeaderModifier response_header_modifier =>
    match routes.http.header_modifier response_header_modifier with
    | Except.error e => Except.error e
    | Except.ok f => Except.ok (core.Filter.ResponseHeaderModifier f)
  | policy.HttpRouteFilter.RequestRedirect request_redirect =>
    match routes.http.req_redirect request_redirect with
    | Except.error e => Except.error e
    | Except.ok f => Except.ok (core.Filter.RequestRedirect f)

/-- `TryFrom<gateway::HttpRoute> for RouteBinding<HttpRouteMatch>`. -/
def try_from_gateway_http (route : gateway.HttpRoute) :
    Except ConvError (RouteBinding core.HttpRouteMatch) :=
  let route_ns := route.metadata.«namespace»
  let creation_timestamp := route.metadata.creation_timestamp.map k8s.Time.val
  match ParentRef.collect_from route_ns route.spec.inner.parent_refs with
  | Except.error e => Except.error (ConvError.invalidParentRef e)
  | Except.ok parents =>
  let hostnames := (route.spec.hostnames.getD []).map routes.http.host_match
  match collectExcept ((route.spec.rules.getD []).map fun rule =>
      try_http_rule rule.«matches» rule.filters try_gateway_filter) with
  | Except.error e => Except.error e
  | Except.ok rules =>
  let statuses :=
    match route.status with
    | none => []
    | some status => Status.collect_from status.inner
  Except.ok
    { parents,
      route := { hostnames, rules, authorizations := [], creation_timestamp },
      statuses }

/-- `TryFrom<gateway::GrpcRoute> for RouteBinding<GrpcRouteMatch>`. -/
def try_from_gateway_grpc (route : gateway.GrpcRoute) :
    Except ConvError (RouteBinding core.GrpcRouteMatch) :=
  let route_ns := route.metadata.«namespace»
  let creation_timestamp := route.metadata.creation_timestamp.map k8s.Time.val
  match ParentRef.collect_from route_ns route.spec.inner.parent_refs with
  | Except.error e => Except.error (ConvError.invalidParentRef e)
  | Except.ok parents =>
  let hostnames := (route.spec.hostnames.getD []).map routes.http.host_match
  match collectExcept ((route.spec.rules.getD []).map fun rule =>
      try_grpc_rule rule.«matches» rule.filters
        (fun filter => try_gateway_filter filter.into)) with
  | Except.error e => Except.error e
  | Except.ok rules =>
  let statuses :=
    match route.status with
    | none => []
    | some status => Status.collect_from status.inner
  Except.ok
    { parents,
      route := { hostnames, rules, authorizations := [], creation_timestamp },
      statuses }

/-- `TryFrom<policy::HttpRoute> for RouteBinding<HttpRouteMatch>`. -/
def try_from_policy_http (route : policy.HttpRoute) :
    Except ConvError (RouteBinding core.HttpRouteMatch) :=
  let route_ns := route.metadata.«namespace»
  let creation_timestamp := route.metadata.creation_timestamp.map k8s.Time.val
  match ParentRef.collect_from route_ns route.spec.inner.parent_refs with
  | Except.error e => Except.error (ConvError.invalidParentRef e)
  | Except.ok parents =>
  let hostnames := (route.spec.hostnames.getD []).map routes.http.host_match
  match collectExcept ((route.spec.rules.getD []).map fun rule =>
      try_http_rule rule.«matches» rule.filters try_policy_filter) with
  | Except.error e => Except.error e
  | Except.ok rules =>
  let statuses :=
    match route.status with
    | none => []
    | some status => Status.collect_from status.inner
  Except.ok
    { parents,
      route := { hostnames, rules, authorizations := [], creation_timestamp },
      statuses }

end RouteBinding

/-- Modelled from the spec: a key of the derived route map — a default
(synthetic) route or a route resource identity. -/
inductive InboundRouteRef where
  | Default (name : String)
  | Linkerd (gkn : String)
deriving DecidableEq, Repr

/-- Whether a route-map key is a synthetic default route. -/
def InboundRouteRef.is_default : InboundRouteRef → Bool
  | InboundRouteRef.Default _ => true
  | InboundRouteRef.Linkerd _ => false

/-- Modelled from the spec: the protocol tags of a derived inbound state
(detect-and-fan-out, HTTP/1, HTTP/2, RPC, opaque). -/
inductive ProxyProtocolTag where
  | Detect
  | Http1
  | Http2
  | Grpc
  | Opaque
deriving DecidableEq, Repr

/-- Modelled from the spec: an exposure declaration (Server) once matched
to an endpoint — its name and declared base protocol (the label selector
and port matching happen before derivation receives it). -/
structure ServerDecl where
  name : String
  protocol : ProxyProtocolTag
deriving DecidableEq, Repr

/-- Modelled from the spec: the declaration reference a derived state
carries: a matched Server or the default. -/
inductive ServerRef where
  | Default (name : String)
  | Server (name : String)
deriving DecidableEq, Repr

/-- Modelled from the spec: a derived inbound state — declaration
reference, protocol tag and the route map (keyed association list). -/
structure InboundState (α : Type) where
  reference : ServerRef
  protocol : ProxyProtocolTag
  routes : List (InboundRouteRef × α)
deriving DecidableEq, Repr

/-- Modelled from the spec: probe-merging is disallowed when the declared
protocol is RPC — an explicitly declared RPC (gRPC) protocol never
carries merged HTTP probe routes. -/
def probe_merge_allowed : ProxyProtocolTag → Bool
  | ProxyProtocolTag.Grpc => false
  | _ => true

/-- Modelled from the spec (§4.3 steps 2–3 and §4.4): derive one
endpoint's inbound state. With no matching declaration the state is the
default one — protocol detect, route set exactly the probe routes. With a
matched declaration, the protocol is the declared one, the route map
holds the declaration's accepted routes, and the probe routes are merged
in only when the declared protocol allows probe-merging. -/
def derive_inbound {α : Type} (probe_routes server_routes : List (InboundRouteRef × α)) :
    Option ServerDecl → InboundState α
  | none =>
    { reference := ServerRef.Default "default",
      protocol := ProxyProtocolTag.Detect,
      routes := probe_routes }
  | some s =>
    { reference := ServerRef.Server s.name,
      protocol := s.protocol,
      routes := server_routes ++
        (if probe_merge_allowed s.protocol then probe_routes else []) }

/-- The first invalid-reference error produced while scanning a parent
reference list in order (used to state the fail-fast claim). -/
def first_invalid (route_ns : Option String) :
    List gateway.ParentReference → Option InvalidParentRef
  | [] => none
  | r :: rest =>
    match ParentRef.from_parent_ref route_ns r with
    | none => first_invalid route_ns rest
    | some (Except.error e) => some e
    | some (Except.ok _) => first_invalid route_ns rest

/-- One persisted condition, parsed the way the claim describes it: a
condition whose type is not `Accepted` or whose status string is neither
`True` nor `False` is dropped. -/
def parse_condition (condition : k8s.Condition) : Option Condition :=
  if condition.type_ == "Accepted" then
    if condition.status == "True" then
      some { type_ := ConditionType.Accepted, status := true }
    else if condition.status == "False" then
      some { type_ := ConditionType.Accepted, status := false }
    else none
  else none

/-- Whether a gateway filter is of one of the three supported kinds. -/
def gateway.HttpRouteFilter.is_supported : gateway.HttpRouteFilter → Bool
  | gateway.HttpRouteFilter.RequestHeaderModifier _ => true
  | gateway.HttpRouteFilter.ResponseHeaderModifier _ => true
  | gateway.HttpRouteFilter.RequestRedirect _ => true
  | gateway.HttpRouteFilter.RequestMirror _ => false
  | gateway.HttpRouteFilter.URLRewrite _ => false
  | gateway.HttpRouteFilter.ExtensionRef _ => false

/-- The structural injection of the policy CRD's filters into the gateway
filter type: each of the three supported kinds maps to the gateway
variant of the same kind. -/
def policy.HttpRouteFilter.to_gateway : policy.HttpRouteFilter → gateway.HttpRouteFilter
  | policy.HttpRouteFilter.RequestHeaderModifier f => gateway.HttpRouteFilter.RequestHeaderModifier f
  | policy.HttpRouteFilter.ResponseHeaderModifier f => gateway.HttpRouteFilter.ResponseHeaderModifier f
  | policy.HttpRouteFilter.RequestRedirect f => gateway.HttpRouteFilter.RequestRedirect f

theorem except_isOk_iff_exists {ε α : Type} (x : Except ε α) :
    x.isOk = true ↔ ∃ a, x = Except.ok a := by
  cases x <;> simp [Except.isOk, Except.toBool]

theorem collectExcept_isOk {ε α : Type} (l : List (Except ε α)) :
    (collectExcept l).isOk = l.all Except.isOk := by
  induction l with
  | nil => rfl
  | cons x xs ih =>
    cases x with
    | error e => rfl
    | ok a =>
      simp only [collectExcept, List.all_cons, ← ih]
      cases h : collectExcept xs with
      | error e => simp [h, Except.isOk, Except.toBool]
      | ok rest => simp [h, Except.isOk, Except.toBool]

theorem collectExcept_isOk_iff {ε α : Type} (l : List (Except ε α)) :
    (collectExcept l).isOk = true ↔ ∀ x ∈ l, x.isOk = true := by
  rw [collectExcept_isOk, List.all_eq_true]

/-- C5: `selects_server(name)` holds exactly when some parent reference
names that server, and `accepted_by_server(name)` holds exactly when a
stored status for that parent carries an `Accepted` condition with status
true. -/
theorem c5_selects_and_accepted :
    ∀ {MatchType : Type} (b : RouteBinding MatchType) (name : String),
      (b.selects_server name = true ↔ ParentRef.Server name ∈ b.parents)
    ∧ (b.accepted_by_server name = true ↔
        ∃ s ∈ b.statuses, s.parent = ParentRef.Server name ∧
          ∃ c ∈ s.conditions, c.type_ = ConditionType.Accepted ∧ c.status = true) := by
  intro MatchType b name
  constructor
  · rw [RouteBinding.selects_server, List.any_eq_true]
    constructor
    · rintro ⟨p, hp, hmatch⟩
      cases p with
      | Server n =>
        simp only [beq_iff_eq] at hmatch
        subst hmatch
        exact hp
    · intro h
      exact ⟨ParentRef.Server name, h, by simp⟩
  · rw [RouteBinding.accepted_by_server, List.any_eq_true]
    constructor
    · rintro ⟨s, hs, hcond⟩
      rw [Bool.and_eq_true] at hcond
      obtain ⟨hparent, hany⟩ := hcond
      rw [decide_eq_true_eq] at hparent
      rw [List.any_eq_true] at hany
      obtain ⟨c, hc, hcc⟩ := hany
      rw [Bool.and_eq_true, decide_eq_true_eq] at hcc
      exact ⟨s, hs, hparent, c, hc, hcc.1, hcc.2⟩
    · rintro ⟨s, hs, hparent, c, hc, ht, hst⟩
      refine ⟨s, hs, ?_⟩
      rw [Bool.and_eq_true, decide_eq_true_eq]
      refine ⟨hparent, ?_⟩
      rw [List.any_eq_true]
      refine ⟨c, hc, ?_⟩
      rw [Bool.and_eq_true, decide_eq_true_eq]
      exact ⟨ht, hst⟩

/-- C10: converting an RPC method predicate never fails and collapses the
exact-versus-regular-expression distinction: `Exact` and
`RegularExpression` method matches with the same service and method
convert to the same canonical value, and the method predicate never
affects whether the match conversion succeeds. -/
theorem c10_grpc_method_match :
    ∀ (headers : Option (List gateway.HttpHeaderMatch)) (m s : Option String),
      (RouteBinding.try_grpc_match
          { headers, method := some (gateway.GrpcMethodMatch.Exact m s) } =
        RouteBinding.try_grpc_match
          { headers, method := some (gateway.GrpcMethodMatch.RegularExpression m s) })
    ∧ ∀ (mm : Option gateway.GrpcMethodMatch),
        (RouteBinding.try_grpc_match { headers, method := mm }).isOk =
          (RouteBinding.try_grpc_match { headers, method := none }).isOk := by
  intro headers m s
  constructor
  · cases h : collectExcept ((headers.getD []).map routes.http.header_match) with
    | error e => simp [RouteBinding.try_grpc_match, h]
    | ok hs => simp [RouteBinding.try_grpc_match, h]
  · intro mm
    cases h : collectExcept ((headers.getD []).map routes.http.header_match) with
    | error e => simp [RouteBinding.try_grpc_match, h]
    | ok hs => simp [RouteBinding.try_grpc_match, h, Except.isOk, Except.toBool]

/-- C1: parent-reference construction fails with the cross-namespace,
port or section-name invalid-reference error under the corresponding
condition, silently skips references that do not target the `Server` kind
or have an empty name, and otherwise collects the named server. -/
theorem c1_parent_ref_construction :
    ∀ (route_ns : Option String) (ref : gateway.ParentReference),
      ((policy.parent_ref_targets_kind_server ref = false ∨ ref.name = "") →
        ParentRef.from_parent_ref route_ns ref = none)
    ∧ (policy.parent_ref_targets_kind_server ref = true → ref.name ≠ "" →
        ((∀ ns, ref.«namespace» = some ns → route_ns ≠ some ns →
            ParentRef.from_parent_ref route_ns ref =
              some (Except.error InvalidParentRef.ServerInAnotherNamespace))
        ∧ ((ref.«namespace» = none ∨ ref.«namespace» = route_ns) →
            ref.port.isSome = true →
            ParentRef.from_parent_ref route_ns ref =
              some (Except.error InvalidParentRef.SpecifiesPort))
        ∧ ((ref.«namespace» = none ∨ ref.«namespace» = route_ns) →
            ref.port = none → ref.section_name.isSome = true →
            ParentRef.from_parent_ref route_ns ref =
              some (Except.error InvalidParentRef.SpecifiesSection))
        ∧ ((ref.«namespace» = none ∨ ref.«namespace» = route_ns) →
            ref.port = none → ref.section_name = none →
            ParentRef.from_parent_ref route_ns ref =
              some (Except.ok (ParentRef.Server ref.name))))) := by
  intro route_ns ref
  refine ⟨?_, ?_⟩
  · rintro (h | h)
    · simp [ParentRef.from_parent_ref, h]
    · have hempty : ref.name.isEmpty = true := by
        rw [String.isEmpty_iff]; exact h
      simp [ParentRef.from_parent_ref, hempty]
  · intro ht hn
    have hempty : ref.name.isEmpty = false := by
      cases hcase : ref.name.isEmpty with
      | false => rfl
      | true => exact absurd (String.isEmpty_iff ref.name |>.mp hcase) hn
    have hskip : (!policy.parent_ref_targets_kind_server ref || ref.name.isEmpty) = false := by
      simp [ht, hempty]
    refine ⟨?_, ?_, ?_, ?_⟩
    · intro ns hns hne
      have hcond : (ref.«namespace».isSome && ref.«namespace» != route_ns) = true := by
        rw [hns]
        simp [bne_iff_ne]
        exact Ne.symm hne
      simp [ParentRef.from_parent_ref, hskip, hcond]
    · intro hopt hport
      have hcond : (ref.«namespace».isSome && ref.«namespace» != route_ns) = false := by
        rcases hopt with h | h <;> simp [h]
      simp [ParentRef.from_parent_ref, hskip, hcond, hport]
    · intro hopt hport hsec
      have hcond : (ref.«namespace».isSome && ref.«namespace» != route_ns) = false := by
        rcases hopt with h | h <;> simp [h]
      simp [ParentRef.from_parent_ref, hskip, hcond, hport, hsec]
    · intro hopt hport hsec
      have hcond : (ref.«namespace».isSome && ref.«namespace» != route_ns) = false := by
        rcases hopt with h | h <;> simp [h]
      simp [ParentRef.from_parent_ref, hskip, hcond, hport, hsec]

theorem collect_from_error_of_first_invalid (route_ns : Option String)
    (refs : List gateway.ParentReference) (e : InvalidParentRef)
    (h : first_invalid route_ns refs = some e) :
    collectExcept (refs.filterMap (ParentRef.from_parent_ref route_ns)) = Except.error e := by
  induction refs with
  | nil => simp [first_invalid] at h
  | cons r rest ih =>
    cases hr : ParentRef.from_parent_ref route_ns r with
    | none =>
      simp only [first_invalid, hr] at h
      simp only [List.filterMap_cons, hr]
      exact ih h
    | some res =>
      cases res with
      | error e' =>
        simp only [first_invalid, hr, Option.some.injEq] at h
        subst h
        simp [List.filterMap_cons, hr, collectExcept]
      | ok p =>
        simp only [first_invalid, hr] at h
        simp only [List.filterMap_cons, hr, collectExcept]
        rw [ih h]

/-- C2: when a route's parent-reference list contains an invalid
reference, conversion of the whole resource fails with the first such
reference's error — for all three conversion entry points — and no
binding is produced. -/
theorem c2_first_invalid_parent_aborts :
    (∀ (route : gateway.HttpRoute) (e : InvalidParentRef),
      first_invalid route.metadata.«namespace» (route.spec.inner.parent_refs.getD []) = some e →
      RouteBinding.try_from_gateway_http route = Except.error (ConvError.invalidParentRef e))
  ∧ (∀ (route : gateway.GrpcRoute) (e : InvalidParentRef),
      first_invalid route.metadata.«namespace» (route.spec.inner.parent_refs.getD []) = some e →
      RouteBinding.try_from_gateway_grpc route = Except.error (ConvError.invalidParentRef e))
  ∧ (∀ (route : policy.HttpRoute) (e : InvalidParentRef),
      first_invalid route.metadata.«namespace» (route.spec.inner.parent_refs.getD []) = some e →
      RouteBinding.try_from_policy_http route = Except.error (ConvError.invalidParentRef e)) := by
  refine ⟨?_, ?_, ?_⟩ <;>
  · intro route e h
    have hc := collect_from_error_of_first_invalid route.metadata.«namespace»
      (route.spec.inner.parent_refs.getD []) e h
    rw [← ParentRef.collect_from] at hc
    simp [RouteBinding.try_from_gateway_http, RouteBinding.try_from_gateway_grpc,
      RouteBinding.try_from_policy_http, hc]

theorem filter_filterMap_if {α β : Type} (c1 c2 : α → Bool) (g : α → β) (l : List α) :
    (l.filter c1).filterMap (fun a => if c2 a then some (g a) else none) =
      (l.filter fun a => c1 a && c2 a).map g := by
  induction l with
  | nil => rfl
  | cons a l ih =>
    by_cases h1 : c1 a <;> by_cases h2 : c2 a <;>
      simp [List.filter_cons, h1, h2, List.filterMap_cons, ih]

/-- C4: the extracted status records are exactly the parent-status
entries recorded by this controller whose parent kind is `Server`, each
carrying the conditions that parse (type `Accepted`, status `True` or
`False`); unparseable conditions are dropped individually and extraction
is total. -/
theorem c4_status_extraction :
    ∀ (rs : gateway.RouteStatus),
      Status.collect_from rs =
        (rs.parents.filter fun p =>
            p.controller_name == POLICY_CONTROLLER_NAME &&
              p.parent_ref.kind == some "Server").map
          fun p =>
            { parent := ParentRef.Server p.parent_ref.name,
              conditions := p.conditions.filterMap parse_condition } := by
  intro rs
  rw [Status.collect_from]
  have hf : Status.from_parent_status = fun p =>
      if p.parent_ref.kind == some "Server" then
        some ({ parent := ParentRef.Server p.parent_ref.name,
                conditions := p.conditions.filterMap parse_condition } : Status)
      else none := by
    funext p
    rfl
  rw [hf]
  exact filter_filterMap_if _ _ _ _

theorem try_http_match_exists_ok (m : gateway.HttpRouteMatch) :
    ∃ r, RouteBinding.try_http_match m = Except.ok r := by
  rw [RouteBinding.try_http_match]
  obtain ⟨p, hp⟩ : ∃ p, optionTranspose (m.path.map routes.http.path_match) = Except.ok p := by
    cases m.path with
    | none => exact ⟨none, rfl⟩
    | some pm => cases pm <;> exact ⟨_, rfl⟩
  rw [hp]
  obtain ⟨hs, hh⟩ : ∃ hs,
      collectExcept ((m.headers.getD []).map routes.http.header_match) = Except.ok hs := by
    rw [← except_isOk_iff_exists, collectExcept_isOk_iff]
    intro x hx
    rw [List.mem_map] at hx
    obtain ⟨h, _, rfl⟩ := hx
    cases h <;> rfl
  rw [hh]
  obtain ⟨qs, hq⟩ : ∃ qs,
      collectExcept ((m.query_params.getD []).map routes.http.query_param_match) = Except.ok qs := by
    rw [← except_isOk_iff_exists, collectExcept_isOk_iff]
    intro x hx
    rw [List.mem_map] at hx
    obtain ⟨q, _, rfl⟩ := hx
    cases q <;> rfl
  rw [hq]
  obtain ⟨mv, hm⟩ : ∃ mv, optionTranspose (m.method.map core.Method.try_from) = Except.ok mv := by
    cases m.method with
    | none => exact ⟨none, rfl⟩
    | some s => exact ⟨_, rfl⟩
  rw [hm]
  exact ⟨_, rfl⟩

theorem try_gateway_filter_isOk (f : gateway.HttpRouteFilter) :
    (RouteBinding.try_gateway_filter f).isOk = f.is_supported := by
  cases f <;> rfl

theorem try_http_rule_error_of_bad_filter {F : Type}
    (ms : Option (List gateway.HttpRouteMatch)) (fs : Option (List F))
    (try_filter : F → Except ConvError core.Filter) (f : F)
    (hf : f ∈ fs.getD []) (herr : (try_filter f).isOk = false) :
    (RouteBinding.try_http_rule ms fs try_filter).isOk = false := by
  obtain ⟨r, hr⟩ : ∃ r,
      collectExcept ((ms.getD []).map RouteBinding.try_http_match) = Except.ok r := by
    rw [← except_isOk_iff_exists, collectExcept_isOk_iff]
    intro x hx
    rw [List.mem_map] at hx
    obtain ⟨mm, _, rfl⟩ := hx
    obtain ⟨v, hv⟩ := try_http_match_exists_ok mm
    rw [hv]; rfl
  rw [RouteBinding.try_http_rule, hr]
  have hbad : (collectExcept ((fs.getD []).map try_filter)).isOk = false := by
    rw [collectExcept_isOk, List.all_eq_false]
    exact ⟨try_filter f, List.mem_map_of_mem _ hf, by simp [herr]⟩
  cases hcf : collectExcept ((fs.getD []).map try_filter) with
  | error e => rfl
  | ok _ =>
    rw [hcf] at hbad
    simp [Except.isOk, Except.toBool] at hbad

theorem try_from_gateway_http_isOk (route : gateway.HttpRoute) :
    (RouteBinding.try_from_gateway_http route).isOk =
      ((ParentRef.collect_from route.metadata.«namespace» route.spec.inner.parent_refs).isOk &&
        (collectExcept ((route.spec.rules.getD []).map fun rule =>
          RouteBinding.try_http_rule rule.«matches» rule.filters
            RouteBinding.try_gateway_filter)).isOk) := by
  simp only [RouteBinding.try_from_gateway_http]
  cases hp : ParentRef.collect_from route.metadata.«namespace» route.spec.inner.parent_refs with
  | error e => simp [Except.isOk, Except.toBool]
  | ok parents =>
    cases hr : collectExcept ((route.spec.rules.getD []).map fun rule =>
        RouteBinding.try_http_rule rule.«matches» rule.filters
          RouteBinding.try_gateway_filter) with
    | error e => simp [Except.isOk, Except.toBool]
    | ok rules => simp [Except.isOk, Except.toBool]

theorem try_grpc_match_exists_ok (m : gateway.GrpcRouteMatch) :
    ∃ r, RouteBinding.try_grpc_match m = Except.ok r := by
  rw [RouteBinding.try_grpc_match]
  obtain ⟨hs, hh⟩ : ∃ hs,
      collectExcept ((m.headers.getD []).map routes.http.header_match) = Except.ok hs := by
    rw [← except_isOk_iff_exists, collectExcept_isOk_iff]
    intro x hx
    rw [List.mem_map] at hx
    obtain ⟨h, _, rfl⟩ := hx
    cases h <;> rfl
  rw [hh]
  exact ⟨_, rfl⟩

theorem try_grpc_rule_error_of_bad_filter {F : Type}
    (ms : Option (List gateway.GrpcRouteMatch)) (fs : Option (List F))
    (try_filter : F → Except ConvError core.Filter) (f : F)
    (hf : f ∈ fs.getD []) (herr : (try_filter f).isOk = false) :
    (RouteBinding.try_grpc_rule ms fs try_filter).isOk = false := by
  obtain ⟨r, hr⟩ : ∃ r,
      collectExcept ((ms.getD []).map RouteBinding.try_grpc_match) = Except.ok r := by
    rw [← except_isOk_iff_exists, collectExcept_isOk_iff]
    intro x hx
    rw [List.mem_map] at hx
    obtain ⟨mm, _, rfl⟩ := hx
    obtain ⟨v, hv⟩ := try_grpc_match_exists_ok mm
    rw [hv]; rfl
  rw [RouteBinding.try_grpc_rule, hr]
  have hbad : (collectExcept ((fs.getD []).map try_filter)).isOk = false := by
    rw [collectExcept_isOk, List.all_eq_false]
    exact ⟨try_filter f, List.mem_map_of_mem _ hf, by simp [herr]⟩
  cases hcf : collectExcept ((fs.getD []).map try_filter) with
  | error e => rfl
  | ok _ =>
    rw [hcf] at hbad
    simp [Except.isOk, Except.toBool] at hbad

theorem try_from_gateway_grpc_isOk (route : gateway.GrpcRoute) :
    (RouteBinding.try_from_gateway_grpc route).isOk =
      ((ParentRef.collect_from route.metadata.«namespace» route.spec.inner.parent_refs).isOk &&
        (collectExcept ((route.spec.rules.getD []).map fun rule =>
          RouteBinding.try_grpc_rule rule.«matches» rule.filters
            (fun filter => RouteBinding.try_gateway_filter filter.into))).isOk) := by
  simp only [RouteBinding.try_from_gateway_grpc]
  cases hp : ParentRef.collect_from route.metadata.«namespace» route.spec.inner.parent_refs with
  | error e => simp [Except.isOk, Except.toBool]
  | ok parents =>
    cases hr : collectExcept ((route.spec.rules.getD []).map fun rule =>
        RouteBinding.try_grpc_rule rule.«matches» rule.filters
          (fun filter => RouteBinding.try_gateway_filter filter.into)) with
    | error e => simp [Except.isOk, Except.toBool]
    | ok rules => simp [Except.isOk, Except.toBool]

/-- C3: gateway filter conversion succeeds exactly for the
request-header-modifier, response-header-modifier and request-redirect
kinds, and a rule containing a request-mirror, URL-rewrite or
extension-reference filter makes conversion of the whole resource fail —
both for gateway HTTP routes and for gateway gRPC routes, whose filters
flow through the same converter via `Into<gateway::HttpRouteFilter>`. -/
theorem c3_filter_kinds :
    (∀ (f : gateway.HttpRouteFilter),
      (RouteBinding.try_gateway_filter f).isOk = f.is_supported)
  ∧ (∀ (route : gateway.HttpRoute) (rule : gateway.HttpRouteRule)
        (f : gateway.HttpRouteFilter),
      rule ∈ route.spec.rules.getD [] → f ∈ rule.filters.getD [] →
      f.is_supported = false →
      (RouteBinding.try_from_gateway_http route).isOk = false)
  ∧ (∀ (route : gateway.GrpcRoute) (rule : gateway.GrpcRouteRule)
        (f : gateway.GrpcRouteFilter),
      rule ∈ route.spec.rules.getD [] → f ∈ rule.filters.getD [] →
      f.into.is_supported = false →
      (RouteBinding.try_from_gateway_grpc route).isOk = false) := by
  refine ⟨try_gateway_filter_isOk, ?_, ?_⟩
  · intro route rule f hrule hf hunsup
    have hfe : (RouteBinding.try_gateway_filter f).isOk = false := by
      rw [try_gateway_filter_isOk, hunsup]
    have hrulee := try_http_rule_error_of_bad_filter rule.«matches» rule.filters
      RouteBinding.try_gateway_filter f hf hfe
    have hrules : (collectExcept ((route.spec.rules.getD []).map fun r =>
        RouteBinding.try_http_rule r.«matches» r.filters
          RouteBinding.try_gateway_filter)).isOk = false := by
      rw [collectExcept_isOk, List.all_eq_false]
      exact ⟨_, List.mem_map_of_mem _ hrule, by simp [hrulee]⟩
    rw [try_from_gateway_http_isOk, hrules, Bool.and_false]
  · intro route rule f hrule hf hunsup
    have hfe : (RouteBinding.try_gateway_filter f.into).isOk = false := by
      rw [try_gateway_filter_isOk, hunsup]
    have hrulee := try_grpc_rule_error_of_bad_filter rule.«matches» rule.filters
      (fun filter => RouteBinding.try_gateway_filter filter.into) f hf hfe
    have hrules : (collectExcept ((route.spec.rules.getD []).map fun r =>
        RouteBinding.try_grpc_rule r.«matches» r.filters
          (fun filter => RouteBinding.try_gateway_filter filter.into))).isOk = false := by
      rw [collectExcept_isOk, List.all_eq_false]
      exact ⟨_, List.mem_map_of_mem _ hrule, by simp [hrulee]⟩
    rw [try_from_gateway_grpc_isOk, hrules, Bool.and_false]

deriving instance DecidableEq for Except

/-- A route whose hostname is not a well-formed hostname pattern, used to
show hostname parsing cannot fail a conversion. -/
def c6_route : gateway.HttpRoute :=
  { metadata := { «namespace» := some "ns-0", name := some "route-bad-hostname",
                  creation_timestamp := none },
    spec := { inner := { parent_refs := none },
              hostnames := some ["!! not a hostname !!"],
              rules := none },
    status := none }

/-- C6 counterexample: a route carrying a malformed hostname pattern
converts successfully (to an exact host match), so a malformed hostname
does not fail the conversion. -/
theorem c6_counterexample :
    RouteBinding.try_from_gateway_http c6_route =
      Except.ok
        { parents := [],
          route := { hostnames := [core.HostMatch.Exact "!! not a hostname !!"],
                     rules := [], authorizations := [], creation_timestamp := none },
          statuses := [] } := by decide

/-- C6 (amended): every hostname parses totally into a host-match pattern
that is exact or wildcard-suffix, and conversion success is independent
of the hostnames field — hostname parsing never fails the conversion. -/
theorem c6_hostname_parsing_total :
    (∀ (h : String),
      routes.http.host_match h = core.HostMatch.Exact h ∨
        ∃ ls, routes.http.host_match h = core.HostMatch.Suffix ls)
  ∧ (∀ (route : gateway.HttpRoute) (hs1 hs2 : Option (List String)),
      (RouteBinding.try_from_gateway_http
          { route with spec := { route.spec with hostnames := hs1 } }).isOk =
        (RouteBinding.try_from_gateway_http
          { route with spec := { route.spec with hostnames := hs2 } }).isOk) := by
  constructor
  · intro h
    rw [routes.http.host_match]
    split
    · right; exact ⟨_, rfl⟩
    · left; rfl
  · intro route hs1 hs2
    rw [try_from_gateway_http_isOk, try_from_gateway_http_isOk]

/-- C9: every successfully converted route binding carries an empty
authorizations mapping — the adapter never populates authorizations, for
any of the three conversion entry points. -/
theorem c9_adapter_authorizations_empty :
    (∀ (route : gateway.HttpRoute) (b : RouteBinding core.HttpRouteMatch),
      RouteBinding.try_from_gateway_http route = Except.ok b →
      b.route.authorizations = [])
  ∧ (∀ (route : gateway.GrpcRoute) (b : RouteBinding core.GrpcRouteMatch),
      RouteBinding.try_from_gateway_grpc route = Except.ok b →
      b.route.authorizations = [])
  ∧ (∀ (route : policy.HttpRoute) (b : RouteBinding core.HttpRouteMatch),
      RouteBinding.try_from_policy_http route = Except.ok b →
      b.route.authorizations = []) := by
  refine ⟨?_, ?_, ?_⟩ <;>
  · intro route b h
    simp only [RouteBinding.try_from_gateway_http, RouteBinding.try_from_gateway_grpc,
      RouteBinding.try_from_policy_http] at h
    split at h
    · exact absurd h (by simp)
    · split at h
      · exact absurd h (by simp)
      · rw [Except.ok.injEq] at h
        subst h
        rfl

theorem try_policy_filter_eq (pf : policy.HttpRouteFilter) :
    RouteBinding.try_gateway_filter pf.to_gateway = RouteBinding.try_policy_filter pf := by
  cases pf <;> rfl

theorem try_http_rule_policy_eq (gr : gateway.HttpRouteRule) (pr : policy.HttpRouteRule)
    (hm : gr.«matches» = pr.«matches»)
    (hf : gr.filters = pr.filters.map (List.map policy.HttpRouteFilter.to_gateway)) :
    RouteBinding.try_http_rule gr.«matches» gr.filters RouteBinding.try_gateway_filter =
      RouteBinding.try_http_rule pr.«matches» pr.filters RouteBinding.try_policy_filter := by
  rw [hm, hf, RouteBinding.try_http_rule, RouteBinding.try_http_rule]
  have hfl : ((pr.filters.map (List.map policy.HttpRouteFilter.to_gateway)).getD []).map
      RouteBinding.try_gateway_filter =
        (pr.filters.getD []).map RouteBinding.try_policy_filter := by
    cases pr.filters with
    | none => rfl
    | some l =>
      induction l with
      | nil => rfl
      | cons pf rest ih =>
        simp only [Option.map_some', Option.getD_some, List.map_cons] at ih ⊢
        rw [try_policy_filter_eq pf, ih]
  rw [hfl]

/-- A persisted route status written by this controller for a Server. -/
def c7x_status : gateway.RouteStatus :=
  { parents := [
      { parent_ref := { group := some "policy.linkerd.io", kind := some "Server",
                        «namespace» := none, name := "srv-8080",
                        section_name := none, port := none },
        controller_name := POLICY_CONTROLLER_NAME,
        conditions := [
          { last_transition_time := { val := 0 }, message := "",
            observed_generation := none, reason := "Accepted",
            status := "True", type_ := "Accepted" } ] } ] }

/-- A gateway-API route carrying a persisted status. -/
def c7x_g : gateway.HttpRoute :=
  { metadata := { «namespace» := some "ns-0", name := some "route-x",
                  creation_timestamp := none },
    spec := { inner := { parent_refs := none }, hostnames := none, rules := none },
    status := some { inner := c7x_status } }

/-- A policy-API route agreeing with `c7x_g` on everything except the
status subresource. -/
def c7x_p : policy.HttpRoute :=
  { metadata := { «namespace» := some "ns-0", name := some "route-x",
                  creation_timestamp := none },
    spec := { inner := { parent_refs := none }, hostnames := none, rules := none },
    status := none }

/-- C7 counterexample: a gateway-API route and a policy-API route that
agree on namespace, creation timestamp, parent references, hostnames and
rules — but differ in their status subresources — convert to different
route bindings, so agreement on those fields alone does not make the two
entry points agree. -/
theorem c7_counterexample :
    (c7x_g.metadata.«namespace» = c7x_p.metadata.«namespace» ∧
     c7x_g.metadata.creation_timestamp = c7x_p.metadata.creation_timestamp ∧
     c7x_g.spec.inner.parent_refs = c7x_p.spec.inner.parent_refs ∧
     c7x_g.spec.hostnames = c7x_p.spec.hostnames ∧
     c7x_g.spec.rules.getD [] = [] ∧ c7x_p.spec.rules.getD [] = []) ∧
    RouteBinding.try_from_gateway_http c7x_g ≠ RouteBinding.try_from_policy_http c7x_p := by
  refine ⟨⟨rfl, rfl, rfl, rfl, rfl, rfl⟩, ?_⟩
  decide

theorem map_rules_policy_eq (gl : List gateway.HttpRouteRule) (pl : List policy.HttpRouteRule)
    (hr : List.Forall₂ (fun gr pr =>
        gr.«matches» = pr.«matches» ∧
          gr.filters = pr.filters.map (List.map policy.HttpRouteFilter.to_gateway)) gl pl) :
    gl.map (fun rule =>
        RouteBinding.try_http_rule rule.«matches» rule.filters
          RouteBinding.try_gateway_filter) =
      pl.map (fun rule =>
        RouteBinding.try_http_rule rule.«matches» rule.filters
          RouteBinding.try_policy_filter) := by
  induction hr with
  | nil => rfl
  | cons hpair _ ih =>
    simp only [List.map_cons]
    rw [try_http_rule_policy_eq _ _ hpair.1 hpair.2, ih]

/-- C7 (amended): a gateway-API HTTP route and a policy-API HTTP route
whose namespace, creation timestamp, parent references, hostnames and
status subresources agree, and whose rules correspond (equal matches,
filters related by the structural injection of policy filters into
gateway filters — i.e. restricted to the kinds both families support),
convert to equal route bindings. -/
theorem c7_gateway_policy_agree :
    ∀ (g : gateway.HttpRoute) (p : policy.HttpRoute),
      g.metadata.«namespace» = p.metadata.«namespace» →
      g.metadata.creation_timestamp = p.metadata.creation_timestamp →
      g.spec.inner.parent_refs = p.spec.inner.parent_refs →
      g.spec.hostnames = p.spec.hostnames →
      g.status.map gateway.HttpRouteStatus.inner =
        p.status.map policy.HttpRouteStatus.inner →
      List.Forall₂ (fun (gr : gateway.HttpRouteRule) (pr : policy.HttpRouteRule) =>
          gr.«matches» = pr.«matches» ∧
            gr.filters = pr.filters.map (List.map policy.HttpRouteFilter.to_gateway))
        (g.spec.rules.getD []) (p.spec.rules.getD []) →
      RouteBinding.try_from_gateway_http g = RouteBinding.try_from_policy_http p := by
  intro g p hns hts hpr hh hst hr
  have hrules : (g.spec.rules.getD []).map (fun rule =>
      RouteBinding.try_http_rule rule.«matches» rule.filters
        RouteBinding.try_gateway_filter) =
      (p.spec.rules.getD []).map (fun rule =>
        RouteBinding.try_http_rule rule.«matches» rule.filters
          RouteBinding.try_policy_filter) :=
    map_rules_policy_eq _ _ hr
  have hstatus : (match g.status with
      | none => []
      | some status => Status.collect_from status.inner) =
      (match p.status with
      | none => []
      | some status => Status.collect_from status.inner) := by
    cases hg : g.status with
    | none =>
      cases hp2 : p.status with
      | none => rfl
      | some s => rw [hg, hp2] at hst; simp at hst
    | some s =>
      cases hp2 : p.status with
      | none => rw [hg, hp2] at hst; simp at hst
      | some s2 =>
        rw [hg, hp2] at hst
        simp only [Option.map_some', Option.some.injEq] at hst
        simp [hst]
  simp only [RouteBinding.try_from_gateway_http, RouteBinding.try_from_policy_http]
  rw [hns, hts, hpr, hrules, hh, hstatus]

/-- A header-modification filter payload shared by the C7 witness pair. -/
def c7w_filter : gateway.HttpRequestHeaderFilter :=
  { set := none, add := some [("x-test", "1")], remove := none }

/-- A gateway-API route for the C7 witness. -/
def c7w_g : gateway.HttpRoute :=
  { metadata := { «namespace» := some "ns-0", name := some "route-a",
                  creation_timestamp := some { val := 1 } },
    spec := { inner := { parent_refs := some [
                { group := some "policy.linkerd.io", kind := some "Server",
                  «namespace» := none, name := "srv-8080",
                  section_name := none, port := none } ] },
              hostnames := some ["example.com"],
              rules := some [
                { «matches» := none,
                  filters := some [gateway.HttpRouteFilter.RequestHeaderModifier c7w_filter],
                  backend_refs := none } ] },
    status := none }

/-- The policy-API route agreeing with `c7w_g` on every semantic field. -/
def c7w_p : policy.HttpRoute :=
  { metadata := { «namespace» := some "ns-0", name := some "route-a",
                  creation_timestamp := some { val := 1 } },
    spec := { inner := { parent_refs := some [
                { group := some "policy.linkerd.io", kind := some "Server",
                  «namespace» := none, name := "srv-8080",
                  section_name := none, port := none } ] },
              hostnames := some ["example.com"],
              rules := some [
                { «matches» := none,
                  filters := some [policy.HttpRouteFilter.RequestHeaderModifier c7w_filter],
                  backend_refs := none, timeouts := none } ] },
    status := none }

/-- C7 witness: the two agreeing routes above convert identically. -/
theorem c7_witness :
    RouteBinding.try_from_gateway_http c7w_g = RouteBinding.try_from_policy_http c7w_p :=
  c7_gateway_policy_agree c7w_g c7w_p rfl rfl rfl rfl rfl
    (List.Forall₂.cons ⟨rfl, rfl⟩ List.Forall₂.nil)

/-- C8: when the matched exposure declaration declares the RPC (gRPC)
protocol, the derived state's route map contains no default (probe)
routes — whatever the workload's probes and the declaration's own routes
are — while the default, no-declaration state's route set is exactly the
probe routes. -/
theorem c8_no_probe_routes_for_grpc :
    ∀ {α : Type} (probe_routes server_routes : List (InboundRouteRef × α)) (s : ServerDecl),
      s.protocol = ProxyProtocolTag.Grpc →
      server_routes.all (fun kv => !kv.1.is_default) = true →
      ((derive_inbound probe_routes server_routes (some s)).routes.all
          (fun kv => !kv.1.is_default) = true
        ∧ (derive_inbound probe_routes server_routes none).routes = probe_routes) := by
  intro α probe_routes server_routes s hg hsr
  constructor
  · simp only [derive_inbound, hg, probe_merge_allowed]
    simpa using hsr
  · rfl

/-- Concrete probe route set for the C8 witness. -/
def c8_probe_routes : List (InboundRouteRef × Nat) := [(InboundRouteRef.Default "probe", 0)]

/-- Concrete declaration route set for the C8 witness. -/
def c8_server_routes : List (InboundRouteRef × Nat) :=
  [(InboundRouteRef.Linkerd "GrpcRoute.route-foo.ns-0", 0)]

/-- The gRPC exposure declaration of the C8 witness. -/
def c8_server : ServerDecl := { name := "srv-5432", protocol := ProxyProtocolTag.Grpc }

/-- C8 witness: at the concrete gRPC declaration, the derived route map
holds no default probe route, while the no-declaration state's routes are
exactly the probe routes. -/
theorem c8_witness :
    ((derive_inbound c8_probe_routes c8_server_routes (some c8_server)).routes.all
        (fun kv => !kv.1.is_default) = true)
    ∧ (derive_inbound c8_probe_routes c8_server_routes none).routes = c8_probe_routes :=
  c8_no_probe_routes_for_grpc c8_probe_routes c8_server_routes c8_server rfl (by decide)

/-- A well-formed parent reference naming the Server `srv-8080`. -/
def example_parent_ref : gateway.ParentReference :=
  { group := some "policy.linkerd.io", kind := some "Server", «namespace» := none,
    name := "srv-8080", section_name := none, port := none }

theorem collect_from_example_ok :
    ParentRef.collect_from (some "ns-0") (some [example_parent_ref]) =
      Except.ok [ParentRef.Server "srv-8080"] := by decide

theorem collect_from_example_port_error :
    ParentRef.collect_from (some "ns-0")
      (some [{ example_parent_ref with port := some 8080 }]) =
      Except.error InvalidParentRef.SpecifiesPort := by decide

theorem first_invalid_example :
    first_invalid (some "ns-0")
      [example_parent_ref, { example_parent_ref with section_name := some "sec" }] =
      some InvalidParentRef.SpecifiesSection := by decide

/-- A gRPC route mirroring the in-tree test fixture `mk_route`. -/
def example_grpc_route : gateway.GrpcRoute :=
  { metadata := { «namespace» := some "ns-0", name := some "route-foo",
                  creation_timestamp := some { val := 3 } },
    spec := { inner := { parent_refs := some [example_parent_ref] },
              hostnames := none,
              rules := some [
                { «matches» := some [
                    { headers := none,
                      method := some (gateway.GrpcMethodMatch.Exact
                        (some "Test") (some "io.linkerd.testing")) } ],
                  filters := none, backend_refs := none } ] },
    status := some { inner := { parents := [
      { parent_ref := example_parent_ref,
        controller_name := POLICY_CONTROLLER_NAME,
        conditions := [
          { last_transition_time := { val := 0 }, message := "",
            observed_generation := none, reason := "Accepted",
            status := "True", type_ := "Accepted" } ] } ] } } }

/-- The binding `example_grpc_route` converts to. -/
def example_grpc_binding : RouteBinding core.GrpcRouteMatch :=
  { parents := [ParentRef.Server "srv-8080"],
    route := { hostnames := [],
               rules := [
                 { «matches» := [
                     { headers := [],
                       method := some { method := some "Test",
                                        service := some "io.linkerd.testing" } } ],
                   filters := [] } ],
               authorizations := [],
               creation_timestamp := some 3 },
    statuses := [
      { parent := ParentRef.Server "srv-8080",
        conditions := [ { type_ := ConditionType.Accepted, status := true } ] } ] }

theorem try_from_grpc_example :
    RouteBinding.try_from_gateway_grpc example_grpc_route =
      Except.ok example_grpc_binding := by decide

theorem example_grpc_binding_server_queries :
    example_grpc_binding.selects_server "srv-8080" = true ∧
    example_grpc_binding.accepted_by_server "srv-8080" = true ∧
    example_grpc_binding.selects_server "srv-other" = false ∧
    example_grpc_binding.accepted_by_server "srv-other" = false := by decide

theorem try_gateway_filter_urlrewrite_example :
    RouteBinding.try_gateway_filter
        (gateway.HttpRouteFilter.URLRewrite { hostname := none, path := none }) =
      Except.error (ConvError.message "URLRewrite filter is not supported") := by decide

/-- A gRPC route whose single rule carries a request-mirror filter. -/
def example_grpc_mirror_route : gateway.GrpcRoute :=
  { metadata := { «namespace» := some "ns-0", name := some "route-mirror",
                  creation_timestamp := none },
    spec := { inner := { parent_refs := some [example_parent_ref] },
              hostnames := none,
              rules := some [
                { «matches» := none,
                  filters := some [gateway.GrpcRouteFilter.RequestMirror
                    { backend_ref := "backend-0" }],
                  backend_refs := none } ] },
    status := none }

theorem try_from_grpc_mirror_example :
    RouteBinding.try_from_gateway_grpc example_grpc_mirror_route =
      Except.error (ConvError.message "RequestMirror filter is not supported") := by decide
